import Mathlib

/-!
Verification development for the smart-summary-app backend
(`apps/backend/app`): a shallow embedding in Lean 4 of the context
optimizer, similarity cache, strategy selector, prompt builders,
LangGraph orchestrator, simplified smart summarizer, LLM service
validation layer, and the streaming HTTP endpoint framing.

External effects are abstracted: the sentence-embedding model becomes an
explicit function `String → List ℚ`, the `tiktoken` token counter a
function `String → ℕ`, and the LLM provider an oracle record; floats are
modelled as exact rationals.  Fallible code returns `Except`.
-/

namespace SmartSummary

/-! ## Python string primitives -/

/-- Python `str.split()` (no argument): split on runs of whitespace,
discarding empty pieces.  Worker on character lists with an accumulator
for the word currently being read (in reverse). -/
def pySplitAux : List Char → List Char → List String
  | [], acc => if acc.isEmpty then [] else [⟨acc.reverse⟩]
  | c :: cs, acc =>
    if c.isWhitespace then
      if acc.isEmpty then pySplitAux cs [] else ⟨acc.reverse⟩ :: pySplitAux cs []
    else
      pySplitAux cs (c :: acc)

/-- Python `str.split()` with no separator argument. -/
def pySplit (s : String) : List String := pySplitAux s.toList []

/-- Python `str.strip()`: drop leading and trailing whitespace. -/
def pyStrip (s : String) : String :=
  ⟨(((s.toList.dropWhile Char.isWhitespace).reverse.dropWhile Char.isWhitespace).reverse)⟩

/-- Python `str.lower()` (the source only lowercases ASCII keywords). -/
def pyLower (s : String) : String := ⟨s.toList.map Char.toLower⟩

/-- `needle in haystack` on character lists: some suffix of the haystack
starts with the needle. -/
def listContains (needle : List Char) : List Char → Bool
  | [] => needle.isEmpty
  | c :: cs => needle.isPrefixOf (c :: cs) || listContains needle cs

/-- Python `needle in haystack` substring test on strings. -/
def strContains (haystack needle : String) : Bool :=
  listContains needle.toList haystack.toList

/-- Python `int()` applied to a float/rational: truncation toward zero. -/
def pyInt (q : ℚ) : ℤ := if q < 0 then -⌊-q⌋ else ⌊q⌋

/-- Rational inner product (the FAISS `IndexFlatIP` score of two
embedding vectors). -/
def dotQ (v w : List ℚ) : ℚ := (List.zipWith (· * ·) v w).sum

/-- Display rendering of a rational inside a streamed JSON fragment.
Models Python's `str()` / `format()` of a float opaquely; no claim
inspects the rendered digits. -/
def renderQ (q : ℚ) : String := toString q.num ++ "/" ++ toString q.den

/-! ## Data model (`langgraph_service.py`) -/

/-- `SummaryContext` dataclass: context for summarization with
optimization data. -/
structure SummaryContext where
  text : String
  text_length : ℕ
  estimated_tokens : ℕ
  complexity_score : ℚ
  domain : String
  language : String
  user_preferences : List (String × String)
  cost_budget : ℚ
deriving Repr, DecidableEq

/-- `OptimizationResult` dataclass: result of context optimization. -/
structure OptimizationResult where
  optimized_prompt : String
  expected_tokens : ℕ
  confidence_score : ℚ
  cost_estimate : ℚ
  strategy_used : String
deriving Repr, DecidableEq

/-- One entry of `ContextOptimizer.text_cache`.  The wall-clock
`timestamp` field of the Python dict is never read by any code under
verification and is omitted. -/
structure CacheEntry where
  text : String
  summary : String
  strategy : String
deriving Repr, DecidableEq

/-- The mutable state of a `ContextOptimizer`: the FAISS index (a list
of embedding vectors, in insertion order) and the parallel
`text_cache` list. -/
structure CacheState where
  index : List (List ℚ)
  entries : List CacheEntry
deriving Repr, DecidableEq

/-- A result dict produced by `ContextOptimizer.find_similar_texts`. -/
structure SimilarText where
  text : String
  summary : String
  similarity : ℚ
  strategy : String
deriving Repr, DecidableEq

/-- Placeholder entry for guarded list indexing (the Python code checks
`idx < len(self.text_cache)` before subscripting). -/
def defaultEntry : CacheEntry := { text := "", summary := "", strategy := "" }

/-! ## FAISS search model

`IndexFlatIP.search` returns the `k` stored vectors with the largest
inner product against the query, in descending score order.  Ties are
broken deterministically by the smaller vector id, matching the spec's
requirement of deterministic nearest-neighbor behavior.  Pairs are
`(id, score)`. -/

/-- `a` ranks strictly before `b`: larger score, or equal score and
smaller id. -/
def rankBefore (a b : ℕ × ℚ) : Prop :=
  b.2 < a.2 ∨ (a.2 = b.2 ∧ a.1 < b.1)

instance (a b : ℕ × ℚ) : Decidable (rankBefore a b) := by
  unfold rankBefore; infer_instance

/-- Insert a scored pair into a list already sorted by `rankBefore`. -/
def insertRanked (x : ℕ × ℚ) : List (ℕ × ℚ) → List (ℕ × ℚ)
  | [] => [x]
  | y :: ys => if rankBefore x y then x :: y :: ys else y :: insertRanked x ys

/-- Sort scored pairs by descending score (ties by ascending id). -/
def sortRanked (l : List (ℕ × ℚ)) : List (ℕ × ℚ) := l.foldr insertRanked []

/-- Enumerate a score list with vector ids starting at `k`. -/
def enumFromIdx (k : ℕ) : List ℚ → List (ℕ × ℚ)
  | [] => []
  | x :: xs => (k, x) :: enumFromIdx (k + 1) xs

/-- The scored pairs `(id, ⟨query, vectors[id]⟩)` for a whole index. -/
def scorePairs (qe : List ℚ) (index : List (List ℚ)) : List (ℕ × ℚ) :=
  enumFromIdx 0 (index.map (dotQ qe))

/-- FAISS `index.search(query, k)`: top-`k` pairs by descending inner
product. -/
def searchIndex (qe : List ℚ) (index : List (List ℚ)) (k : ℕ) : List (ℕ × ℚ) :=
  (sortRanked (scorePairs qe index)).take k

/-! ## `ContextOptimizer` (langgraph_service.py)

The `tiktoken` tokenizer is the abstract parameter `tok : String → ℕ`
and the `SentenceTransformer` model the abstract parameter
`embed : String → List ℚ`. -/

/-- `ContextOptimizer.analyze_text_complexity`: normalized weighted
combination of average word length and average sentence length,
clipped to `[0, 1]` from above by `min`. -/
def analyzeTextComplexity (text : String) : ℚ :=
  let words := pySplit text
  let sentences := text.splitOn "."
  let avgWordLength : ℚ :=
    if words.isEmpty then 0
    else ((words.map (fun w => (w.length : ℚ))).sum) / words.length
  let avgSentenceLength : ℚ :=
    if sentences.isEmpty then 0
    else ((sentences.map (fun s => ((pySplit s).length : ℚ))).sum) / sentences.length
  min 1 ((avgWordLength / 10 + avgSentenceLength / 20) / 2)

/-- The fixed per-domain keyword lists of
`ContextOptimizer.detect_domain`, in Python dict insertion
(= enumeration) order. -/
def domainKeywords : List (String × List String) :=
  [ ("technical", ["algorithm", "system", "code", "software", "programming"]),
    ("business", ["revenue", "profit", "strategy", "market", "sales"]),
    ("academic", ["research", "study", "analysis", "methodology", "findings"]),
    ("news", ["reported", "according", "statement", "official", "announced"]),
    ("legal", ["contract", "agreement", "clause", "legal", "court"]) ]

/-- First key attaining the maximal score, in list order: Python
`max(domain_scores, key=domain_scores.get)` over an insertion-ordered
dict. -/
def argmaxScore : List (String × ℕ) → String → ℕ → String
  | [], best, _ => best
  | (d, s) :: rest, best, bestScore =>
    if bestScore < s then argmaxScore rest d s else argmaxScore rest best bestScore

/-- `ContextOptimizer.detect_domain`: keyword-count domain detection.
The Python source ends in `max(...) if domain_scores else "general"`;
the dict is built from the five fixed domains, so the guard models
exactly that conditional. -/
def detectDomain (text : String) : String :=
  let textLower := pyLower text
  let domainScores := domainKeywords.map
    (fun dk => (dk.1, (dk.2.filter (fun kw => strContains textLower kw)).length))
  match domainScores with
  | [] => "general"
  | (d, s) :: rest => argmaxScore rest d s

/-- `ContextOptimizer.find_similar_texts text threshold`: encode the
query, search the index for `min 10 len(text_cache)` neighbors, keep
those scoring at least the threshold with an in-range id, and return
them as result records (descending similarity). -/
def findSimilarTexts (embed : String → List ℚ) (s : CacheState)
    (text : String) (threshold : ℚ) : List SimilarText :=
  if s.entries.isEmpty then []
  else
    let qe := embed text
    let hits := searchIndex qe s.index (min 10 s.entries.length)
    hits.filterMap (fun p =>
      if threshold ≤ p.2 ∧ p.1 < s.entries.length then
        let e := s.entries.getD p.1 defaultEntry
        some { text := e.text, summary := e.summary
               similarity := p.2, strategy := e.strategy }
      else none)

/-- `ContextOptimizer.add_to_cache`: embed the text, append to the
FAISS index and the text cache; if the cache then holds more than 1000
entries, keep only the newest 800 (`text_cache[-800:]`) and rebuild the
index from the survivors' re-encoded texts. -/
def addToCache (embed : String → List ℚ) (s : CacheState)
    (text summary strategy : String) : CacheState :=
  let index1 := s.index ++ [embed text]
  let entries1 := s.entries ++ [({ text := text, summary := summary,
                                   strategy := strategy } : CacheEntry)]
  if 1000 < entries1.length then
    let entries2 := entries1.drop (entries1.length - 800)
    { entries := entries2, index := entries2.map (fun e => embed e.text) }
  else
    { entries := entries1, index := index1 }

/-! ## Prompt builders (`_compress_strategy` … `_shallow_train_strategy`) -/

/-- Stable descending insertion by sentence score (Python `list.sort`
with `reverse=True` is stable among equal keys). -/
def insertScoredDesc (x : String × ℚ) : List (String × ℚ) → List (String × ℚ)
  | [] => [x]
  | y :: ys => if y.2 ≤ x.2 then x :: y :: ys else y :: insertScoredDesc x ys

/-- Stable sort of scored sentences by descending score. -/
def sortScoredDesc (l : List (String × ℚ)) : List (String × ℚ) :=
  l.foldr insertScoredDesc []

/-- `ContextOptimizer._compress_strategy`: for short texts summarize
directly; otherwise score sentences by position and length, keep the
top five, and wrap them in a summarize instruction. -/
def compressStrategy (tok : String → ℕ) (context : SummaryContext) : OptimizationResult :=
  let sentences := context.text.splitOn "."
  if sentences.length ≤ 3 then
    { optimized_prompt := "Summarize concisely: " ++ context.text
      expected_tokens := tok context.text / 2
      confidence_score := 9/10
      cost_estimate := 1/1000
      strategy_used := "compress" }
  else
    let scored := (sentences.enum.filterMap (fun p =>
      if pyStrip p.2 = "" then none
      else
        let positionScore : ℚ :=
          if p.1 < 2 ∨ sentences.length - 2 ≤ p.1 then 1 else 1/2
        let lengthScore : ℚ := min 1 (((pySplit p.2).length : ℚ) / 20)
        some (pyStrip p.2, positionScore + lengthScore)))
    let selected := ((sortScoredDesc scored).take (min 5 scored.length)).map Prod.fst
    let compressed := String.intercalate ". " selected
    let prompt := "Summarize this key information: " ++ compressed
    { optimized_prompt := prompt
      expected_tokens := tok prompt + 100
      confidence_score := 8/10
      cost_estimate := 8/10000
      strategy_used := "compress" }

/-- Fixed-size word-window chunking: `words[i:i+n]` for
`i in range(0, len(words), n)`, with fuel for termination. -/
def chunksGo (fuel n : ℕ) (l : List String) : List (List String) :=
  match fuel with
  | 0 => []
  | fuel + 1 =>
    match l with
    | [] => []
    | _ :: _ => l.take n :: chunksGo fuel n (l.drop n)

/-- All word windows of size `n` of a word list. -/
def wordChunks (n : ℕ) (l : List String) : List (List String) :=
  chunksGo l.length n l

/-- The rendered chunk sections: `Section i+1: <chunk>\n\n` for the
included chunks, in order. -/
def chunkSections (included : List (List String)) : String :=
  String.join (included.enum.map (fun p =>
    "Section " ++ toString (p.1 + 1) ++ ": " ++ String.intercalate " " p.2 ++ "\n\n"))

/-- `ContextOptimizer._template_strategy`: domain-specific instruction
template (falling back to the "general" wording for any other domain)
applied to the full text. -/
def templateStrategy (tok : String → ℕ) (context : SummaryContext) : OptimizationResult :=
  let template : String → String :=
    if context.domain = "technical" then
      fun t => "Summarize this technical content, focusing on key concepts, methodologies, and outcomes: " ++ t
    else if context.domain = "business" then
      fun t => "Provide a business summary highlighting main objectives, strategies, and results: " ++ t
    else if context.domain = "academic" then
      fun t => "Summarize this academic content, emphasizing research findings and conclusions: " ++ t
    else if context.domain = "news" then
      fun t => "Create a news summary with key facts and developments: " ++ t
    else if context.domain = "legal" then
      fun t => "Summarize this legal content, focusing on main clauses and implications: " ++ t
    else
      fun t => "Provide a clear, concise summary of the main points: " ++ t
  let prompt := template context.text
  { optimized_prompt := prompt
    expected_tokens := tok prompt + 150
    confidence_score := 9/10
    cost_estimate := 12/10000
    strategy_used := "template" }

/-- `ContextOptimizer._chunk_strategy`: with at most 300 words fall
back to the template strategy; otherwise split into 300-word windows,
render the first three as sections after a summarize-each-then-overall
instruction, and budget tokens by the included chunks plus 200. -/
def chunkStrategy (tok : String → ℕ) (context : SummaryContext) : OptimizationResult :=
  let words := pySplit context.text
  if words.length ≤ 300 then templateStrategy tok context
  else
    let chunks := wordChunks 300 words
    let prompt :=
      "Summarize these " ++ toString chunks.length ++
        " sections separately, then provide an overall summary:\n\n" ++
      chunkSections (chunks.take 3)
    let expected :=
      ((chunks.take 3).map (fun c => tok (String.intercalate " " c))).sum + 200
    { optimized_prompt := prompt
      expected_tokens := expected
      confidence_score := 85/100
      cost_estimate := expected * (2/1000000)
      strategy_used := "chunk" }

/-- `ContextOptimizer._shallow_train_strategy`: few-shot prompting from
up to two cached similar examples (the Python code reads them from
`self._cached_similar`, which `optimize_context` has just set; here
they are the explicit argument `cachedSimilar`), falling back to the
template strategy when none exist. -/
def shallowTrainStrategy (tok : String → ℕ) (cachedSimilar : List SimilarText)
    (context : SummaryContext) : OptimizationResult :=
  match cachedSimilar with
  | [] => templateStrategy tok context
  | _ :: _ =>
    let examples := String.join ((cachedSimilar.take 2).map (fun ex =>
      "Text: " ++ ex.text.take 200 ++ "...\nSummary: " ++ ex.summary ++ "\n\n"))
    let prompt :=
      "Based on these examples:\n" ++ examples ++
        "\nNow summarize this text: " ++ context.text
    { optimized_prompt := prompt
      expected_tokens := tok prompt + 120
      confidence_score := 95/100
      cost_estimate := 15/10000
      strategy_used := "shallow_train" }

/-- The `cache_hit` result of `ContextOptimizer.optimize_context`: no
prompt, zero expected tokens and zero cost. -/
def cacheHitResult : OptimizationResult :=
  { optimized_prompt := ""
    expected_tokens := 0
    confidence_score := 1
    cost_estimate := 0
    strategy_used := "cache_hit" }

/-- The Python guard `similar_texts and similar_texts[0]["similarity"] > 0.95`. -/
def isCacheHit (sim : List SimilarText) : Bool :=
  match sim with
  | [] => false
  | top :: _ => decide (95/100 < top.similarity)

/-- `ContextOptimizer.optimize_context`: find similar cached texts
(threshold 0.8), short-circuit to `cache_hit` when the best similarity
strictly exceeds 0.95, otherwise dispatch on token count, cost budget
and similar-text availability.  The Python `elif similar_texts: ... else
template` pair appears here as `if sim.isEmpty then template else
shallow_train`. -/
def optimizeContext (embed : String → List ℚ) (tok : String → ℕ)
    (s : CacheState) (context : SummaryContext) : OptimizationResult :=
  let sim := findSimilarTexts embed s context.text (8/10)
  if isCacheHit sim then cacheHitResult
  else if 2000 < context.estimated_tokens then
    if 5/1000 < context.cost_budget then chunkStrategy tok context
    else compressStrategy tok context
  else if sim.isEmpty then templateStrategy tok context
  else shallowTrainStrategy tok sim context

/-! ## `LangGraphSummaryService` (langgraph_service.py)

The compiled LangGraph workflow is a straight-line composition
`analyze_input → optimize_context → check_cache →
(generate_summary | end)`; it is modelled as that composition.  The
single LLM call of `generate_summary` is the oracle
`String → Except String String` (prompt ↦ response content), and the
returned pair's second component counts provider calls attempted. -/

/-- Graph node `analyze_input`: build the `SummaryContext` from the
request state. -/
def mkContext (tok : String → ℕ) (text : String) (costBudget : ℚ)
    (preferences : List (String × String)) : SummaryContext :=
  { text := text
    text_length := text.length
    estimated_tokens := tok text
    complexity_score := analyzeTextComplexity text
    domain := detectDomain text
    language := "en"
    user_preferences := preferences
    cost_budget := costBudget }

/-- The result dict of `LangGraphSummaryService.summarize`. -/
structure GraphResult where
  summary : String
  cost : ℚ
  model_used : String
  tokens_used : ℕ
  strategy : String
  cached : Bool
deriving Repr, DecidableEq

/-- Model choice of `generate_summary` / `summarize_stream`. -/
def chooseModel (complexityScore costBudget : ℚ) (estimatedTokens : ℕ) : String :=
  if 7/10 < complexityScore ∧ 5/1000 < costBudget then "gpt-4-turbo"
  else if 1000 < estimatedTokens then "gpt-4"
  else "gpt-3.5-turbo"

/-- `model_config[model]["cost_per_token"]`. -/
def costPerToken (model : String) : ℚ :=
  if model = "gpt-3.5-turbo" then 2/1000000
  else if model = "gpt-4" then 6/100000
  else if model = "gpt-4-turbo" then 3/100000
  else 0

/-- Placeholder for guarded head access on similar-text lists. -/
def defaultSimilar : SimilarText :=
  { text := "", summary := "", similarity := 0, strategy := "" }

/-- `LangGraphSummaryService.summarize`: reject empty text, run the
workflow.  `check_cache` re-reads the similar texts computed by
`optimize_context` (the `_cached_similar` side channel), so the model
recomputes the same deterministic list.  On a cache hit the graph ends
with the cached summary, zero cost and no provider call; otherwise
`generate_summary` invokes the oracle once, costs the call, and inserts
the result into the cache.  Oracle failure surfaces as the wrapped
`HTTPException` message. -/
def lgSummarize (embed : String → List ℚ) (tok : String → ℕ)
    (oracle : String → Except String String) (s : CacheState)
    (text : String) (costBudget : ℚ) (preferences : List (String × String)) :
    (Except String (GraphResult × CacheState)) × ℕ :=
  if pyStrip text = "" then (.error "Text cannot be empty", 0)
  else
    let context := mkContext tok text costBudget preferences
    let optimization := optimizeContext embed tok s context
    let sim := findSimilarTexts embed s text (8/10)
    if optimization.strategy_used = "cache_hit" ∧ ¬ sim.isEmpty then
      (.ok ({ summary := (sim.headD defaultSimilar).summary
              cost := 0
              model_used := "unknown"
              tokens_used := 0
              strategy := optimization.strategy_used
              cached := true }, s), 0)
    else
      let model := chooseModel context.complexity_score context.cost_budget
        context.estimated_tokens
      match oracle optimization.optimized_prompt with
      | .error e => (.error ("Summarization failed: " ++ e), 1)
      | .ok response =>
        let summary := pyStrip response
        let totalTokens := optimization.expected_tokens + tok summary
        let actualCost := (totalTokens : ℚ) * costPerToken model
        let s2 := addToCache embed s text summary optimization.strategy_used
        (.ok ({ summary := summary
                cost := actualCost
                model_used := model
                tokens_used := totalTokens
                strategy := optimization.strategy_used
                cached := false }, s2), 1)

/-- `LangGraphSummaryService.summarize_stream`: same selection logic;
a cache hit streams the cached summary word by word (`word + " "`),
otherwise the provider stream (oracle returning the fragment list, or a
mid-stream failure) is relayed after one provider call. -/
def lgSummarizeStream (embed : String → List ℚ) (tok : String → ℕ)
    (streamOracle : String → Except String (List String)) (s : CacheState)
    (text : String) (costBudget : ℚ) (preferences : List (String × String)) :
    (Except String (List String)) × ℕ :=
  if pyStrip text = "" then (.error "Text cannot be empty", 0)
  else
    let context := mkContext tok text costBudget preferences
    let optimization := optimizeContext embed tok s context
    let sim := findSimilarTexts embed s text (8/10)
    if optimization.strategy_used = "cache_hit" ∧ ¬ sim.isEmpty then
      (.ok ((pySplit (sim.headD defaultSimilar).summary).map (fun w => w ++ " ")), 0)
    else
      match streamOracle optimization.optimized_prompt with
      | .error e => (.error ("Stream failed: " ++ e), 1)
      | .ok chunks => (.ok chunks, 1)

/-! ## `SimplifiedSmartSummarizer` (simplified_smart_summarizer.py)

The LLM is the oracle record `LLMOracle`: `complete` maps a prompt to
the response content (or a provider failure), and `decodeAnalysis`
models `json.loads` of the analysis response.  A successful decode is a
JSON dict in which each of the keys the pipeline later subscripts may
individually be absent: `_analyze_text`'s bare `except:` does not fire
for such a dict, and the later `analysis["optimal_compression"]` /
`analysis["text_type"]` subscripts raise `KeyError` downstream.  A
decode error (provider failure, unparseable response, or a non-dict
JSON value, whose `.get` attribute access also raises inside the
`try`) falls to the default analysis. -/

/-- The JSON dict `json.loads` extracts from the analysis response;
every expected key may be absent. -/
structure DecodedAnalysis where
  text_type : Option String
  complexity : Option String
  optimal_compression : Option ℚ
deriving Repr, DecidableEq

/-- LLM provider oracle for the simplified summarizer. -/
structure LLMOracle where
  complete : String → Except String String
  decodeAnalysis : String → Except String DecodedAnalysis

/-- The analysis prompt of `_analyze_text` (braces of the JSON template
escaped). -/
def analysisPrompt (text : String) : String :=
  "Analyze this text and return ONLY a JSON object:\n\x7b\n    \"text_type\": \"meeting|article|technical|email|other\",\n    \"complexity\": \"Low|Medium|High\", \n    \"optimal_compression\": 0.15\n\x7d\n\nFor "
    ++ toString (pySplit text).length
    ++ " words, determine aggressive compression ratio (0.1-0.3) based on content density.\n\nTEXT: "
    ++ text.take 800 ++ (if 800 < text.length then "..." else "")

/-- The fallback analysis of `_analyze_text`'s `except:` branch. -/
def defaultAnalysis : DecodedAnalysis :=
  { text_type := some "other", complexity := some "Medium", optimal_compression := some (2/10) }

/-- `SimplifiedSmartSummarizer._analyze_text`: one provider call; parse
the response, clamp `optimal_compression` above 0.3 down to 0.2 (the
clamp's `get(…, 0.3)` leaves an absent key absent), and fall back to
the default analysis on any failure inside the `try`.  A decoded dict
with missing keys passes through untouched.  Second component:
provider calls attempted. -/
def analyzeText (o : LLMOracle) (text : String) : DecodedAnalysis × ℕ :=
  match (o.complete (analysisPrompt text)).bind o.decodeAnalysis with
  | .ok a =>
    (if 3/10 < a.optimal_compression.getD (3/10)
      then { a with optimal_compression := some (2/10) } else a, 1)
  | .error _ => (defaultAnalysis, 1)

/-- `focus_map.get(text_type, focus_map["other"])`. -/
def focusFor (textType : String) : String :=
  if textType = "meeting" then "decisions, action items, deadlines, responsibilities"
  else if textType = "article" then "main arguments, evidence, conclusions"
  else if textType = "technical" then "core concepts, procedures, requirements"
  else if textType = "email" then "requests, deadlines, important information"
  else "main ideas, important facts, key outcomes"

/-- The extraction prompt of `_extract_key_points`. -/
def extractionPrompt (text textType : String) (targetWords : ℤ) : String :=
  "Extract key points from this " ++ textType ++ " content.\n\nFOCUS ON: "
    ++ focusFor textType ++ "\nTARGET: " ++ toString targetWords
    ++ " words total (be extremely selective)\n\nReturn as numbered list. Only absolutely essential information.\n\nTEXT: "
    ++ text ++ "\n\nKEY POINTS:"

/-- One line of the key-points parsing loop of `_extract_key_points`:
keep a stripped line starting with a digit, `-` or `•`; take the text
after the first `.` when one occurs; strip the `- •` bullet characters
and surrounding whitespace; drop the line if nothing remains. -/
def parsePoint (line : String) : Option String :=
  let l := pyStrip line
  match l.toList with
  | [] => none
  | c :: _ =>
    if c.isDigit ∨ c = '-' ∨ c = '•' then
      let p1 := if '.' ∈ l.toList
        then pyStrip ⟨(l.toList.dropWhile (· ≠ '.')).drop 1⟩
        else l
      let p2 := pyStrip ⟨p1.toList.dropWhile (fun ch => ch = '-' ∨ ch = ' ' ∨ ch = '•')⟩
      if p2 = "" then none else some p2
    else none

/-- The whole key-points parsing loop over the response lines. -/
def parsePoints (content : String) : List String :=
  (content.splitOn "\n").filterMap parsePoint

/-- `SimplifiedSmartSummarizer._extract_key_points`: one provider call;
parse the numbered list and keep at most the first 8 points, falling
back to a one-element placeholder list on failure. -/
def extractKeyPoints (o : LLMOracle) (text textType : String)
    (targetCompression : ℚ) : List String × ℕ :=
  let target := max 10 (pyInt (((pySplit text).length : ℚ) * targetCompression))
  match o.complete (extractionPrompt text textType target) with
  | .ok resp => ((parsePoints resp).take 8, 1)
  | .error _ => (["Unable to extract key points"], 1)

/-- The final-summary prompt of `_create_final_summary`. -/
def summaryPrompt (points : List String) (targetWords : ℤ) (textType : String) : String :=
  "Transform these points into an extremely concise summary.\n\nREQUIREMENTS:\n- Exactly "
    ++ toString targetWords
    ++ " words (strict limit)\n- Use active voice, eliminate filler words\n- Focus on "
    ++ textType ++ " priorities\n- One flowing paragraph, no bullet points\n\nPOINTS:\n"
    ++ String.intercalate "\n" (points.map (fun p => "• " ++ p))
    ++ "\n\nSUMMARY (" ++ toString targetWords ++ " words):"

/-- `SimplifiedSmartSummarizer._create_final_summary`: one provider
call; strip the response, or join the first three points on failure. -/
def createFinalSummary (o : LLMOracle) (points : List String)
    (targetWords : ℤ) (textType : String) : String × ℕ :=
  match o.complete (summaryPrompt points targetWords textType) with
  | .ok r => (pyStrip r, 1)
  | .error _ => (String.intercalate " " (points.take 3), 1)

/-- `SimplifiedSmartSummarizer._calculate_quality_score` (pure
arithmetic; only evaluated on texts with at least one word). -/
def calculateQualityScore (original summary : String) : ℚ :=
  let ow : ℚ := ((pySplit original).length : ℚ)
  let sw : ℚ := ((pySplit summary).length : ℚ)
  let cr : ℚ := 1 - sw / ow
  if 8/10 < cr then min 9 (7 + (cr - 8/10) * 10)
  else if 6/10 < cr then 6 + (cr - 6/10) * 5
  else max 3 (cr * 10)

/-- The result dict of `SimplifiedSmartSummarizer.summarize` (analysis
sub-dict flattened; its `compression_ratio` key is the source variable
`compression_achieved`). -/
structure SmartResult where
  summary : String
  text_type : String
  compression_achieved : ℚ
  quality_score : ℚ
  original_words : ℕ
  summary_words : ℕ
  target_compression : ℚ
  key_points : List String
  errors : List String
deriving Repr, DecidableEq

/-- `SimplifiedSmartSummarizer.summarize`: reject empty text, then run
analysis → target computation → key-point extraction → final summary →
metrics.  `analysis["optimal_compression"]` (line 149) and
`analysis["text_type"]` (line 154) raise `KeyError` when the decoded
analysis lacks the key; the outer `except` wraps that into the
HTTP-500 message (Python renders the key quoted; the quotes are
omitted here).  The stage-5 divisions by `original_words` raise
`ZeroDivisionError` when the text has no words (unreachable after the
emptiness check).  Second component: provider calls attempted. -/
def smartSummarize (o : LLMOracle) (text : String) (maxLength : ℕ) :
    Except String SmartResult × ℕ :=
  if pyStrip text = "" then (.error "Text cannot be empty", 0)
  else
    let ac := analyzeText o text
    let analysis := ac.1
    match analysis.optimal_compression with
    | none => (.error "Smart summarization failed: KeyError: optimal_compression", ac.2)
    | some targetCompression =>
      let originalWords := (pySplit text).length
      let targetWords :=
        max 15 (min ((maxLength / 5 : ℕ) : ℤ) (pyInt ((originalWords : ℚ) * targetCompression)))
      match analysis.text_type with
      | none => (.error "Smart summarization failed: KeyError: text_type", ac.2)
      | some textType =>
        let kc := extractKeyPoints o text textType targetCompression
        let fc := createFinalSummary o kc.1 targetWords textType
        let calls := ac.2 + kc.2 + fc.2
        if originalWords = 0 then
          (.error "Smart summarization failed: division by zero", calls)
        else
          let summaryWords := (pySplit fc.1).length
          (.ok { summary := fc.1
                 text_type := textType
                 compression_achieved := 1 - (summaryWords : ℚ) / (originalWords : ℚ)
                 quality_score := calculateQualityScore text fc.1
                 original_words := originalWords
                 summary_words := summaryWords
                 target_compression := targetCompression
                 key_points := kc.1
                 errors := [] }, calls)

/-- Body of the `try` of `SimplifiedSmartSummarizer.summarize_stream`
up to the first exception: the emitted fragments so far, the provider
calls attempted, and `some message` when an exception aborts the body
mid-stream.  Two aborts are reachable: the `analysis_complete`
f-string (line 189) subscripts `analysis['text_type']` and then
`analysis['optimal_compression']`, raising `KeyError` after only the
first fragment has been emitted when the decoded analysis lacks the
key (Python renders the key quoted; the quotes are omitted here); and
the stage-5 division by a zero `original_words`. -/
def smartStreamAux (o : LLMOracle) (text : String) (maxLength : ℕ) :
    (List String × ℕ) × Option String :=
  let f1 := "data: \x7b\"stage\": \"analyzing\", \"message\": \"Analyzing content type...\"\x7d\n\n"
  let ac := analyzeText o text
  let analysis := ac.1
  match analysis.text_type with
  | none => (([f1], ac.2), some "KeyError: text_type")
  | some textType =>
    match analysis.optimal_compression with
    | none => (([f1], ac.2), some "KeyError: optimal_compression")
    | some targetCompression =>
      let f2 := "data: \x7b\"stage\": \"analysis_complete\", \"text_type\": \""
        ++ textType ++ "\", \"target_compression\": "
        ++ renderQ targetCompression ++ "\x7d\n\n"
      let f3 := "data: \x7b\"stage\": \"extracting\", \"message\": \"Extracting key information...\"\x7d\n\n"
      let originalWords := (pySplit text).length
      let targetWords :=
        max 15 (min ((maxLength / 5 : ℕ) : ℤ)
          (pyInt ((originalWords : ℚ) * targetCompression)))
      let kc := extractKeyPoints o text textType targetCompression
      let f4 := "data: \x7b\"stage\": \"points_extracted\", \"count\": "
        ++ toString kc.1.length ++ "\x7d\n\n"
      let f5 := "data: \x7b\"stage\": \"summarizing\", \"message\": \"Creating compressed summary...\"\x7d\n\n"
      let fc := createFinalSummary o kc.1 targetWords textType
      let words := pySplit fc.1
      let wordFrames := words.enum.map (fun p =>
        "data: " ++ p.2 ++ (if p.1 + 1 < words.length then " " else "") ++ "\n\n")
      let pre := [f1, f2, f3, f4, f5] ++ wordFrames
      let calls := ac.2 + kc.2 + fc.2
      if originalWords = 0 then ((pre, calls), some "division by zero")
      else
        let f6 := "data: \x7b\"stage\": \"complete\", \"compression_achieved\": "
          ++ renderQ (1 - (words.length : ℚ) / (originalWords : ℚ))
          ++ ", \"quality_score\": " ++ renderQ (calculateQualityScore text fc.1)
          ++ "\x7d\n\n"
        ((pre ++ [f6, "data: [DONE]\n\n"], calls), none)

/-- The terminal error fragment of the stream's `except` branch. -/
def errorFrame (msg : String) : String :=
  "data: \x7b\"stage\": \"error\", \"message\": \"" ++ msg ++ "\"\x7d\n\n"

/-- `SimplifiedSmartSummarizer.summarize_stream`: the `try` body, and
on an exception the terminal error fragment followed by the `[DONE]`
marker instead of a raised exception.  Total by construction: the
generator never raises. -/
def smartSummarizeStream (o : LLMOracle) (text : String) (maxLength : ℕ) :
    List String × ℕ :=
  let r := smartStreamAux o text maxLength
  match r.2 with
  | some msg => (r.1.1 ++ [errorFrame msg, "data: [DONE]\n\n"], r.1.2)
  | none => r.1

/-- The process-global `_simplified_smart_summarizer` singleton holds a
`SimplifiedSmartSummarizer`, whose only state relevant here is the
credential it was constructed with. -/
structure Summarizer where
  api_key : String
deriving Repr, DecidableEq

/-- Python truthiness of an optional string (`None` and `""` falsy). -/
def pyTruthy : Option String → Bool
  | none => false
  | some s => decide (s ≠ "")

/-- `SimplifiedSmartSummarizer.__init__`: `api_key or
os.getenv('OPENAI_API_KEY')`, raising when the result is falsy. -/
def mkSummarizer (envKey apiKey : Option String) : Except String Summarizer :=
  let key := if pyTruthy apiKey then apiKey else envKey
  match key with
  | some k => if k = "" then .error "OpenAI API key required" else .ok { api_key := k }
  | none => .error "OpenAI API key required"

/-- `get_simplified_smart_summarizer`: recreate the global instance
when it does not exist yet or when a (truthy) per-request key is
supplied; otherwise return the stored instance.  Returns the instance
and the new global state. -/
def getSummarizer (envKey apiKey : Option String) (st : Option Summarizer) :
    Except String (Summarizer × Option Summarizer) :=
  match st with
  | none => (mkSummarizer envKey apiKey).map (fun s => (s, some s))
  | some s =>
    if pyTruthy apiKey then (mkSummarizer envKey apiKey).map (fun s2 => (s2, some s2))
    else .ok (s, some s)

/-! ## `LLMService` (llm_service.py) and the HTTP endpoint (main.py) -/

/-- `LLMService._create_summary_prompt` of the legacy fallback path
(the only place the `max_length // 3` target appears). -/
def createSummaryPrompt (text : String) (maxLength : ℕ) : String :=
  let targetWords := if maxLength < 200 then maxLength / 4 else maxLength / 3
  "You are an expert at creating concise, high-quality summaries. Your task is to distill the following text into its most essential elements.\n\nREQUIREMENTS:\n- Use approximately "
    ++ toString targetWords
    ++ " words (strict limit)\n- Rewrite completely - don't copy phrases verbatim\n- Focus on key insights, decisions, and outcomes\n- Use active voice and clear, direct language\n- Eliminate all filler words and redundancy\n- If it's meeting notes: extract decisions, action items, and key points\n- If it's an article: focus on main arguments and conclusions\n- If it's a document: highlight critical information and next steps\n\nORIGINAL TEXT:\n"
    ++ text ++ "\n\nCONCISE SUMMARY:"

/-- `LLMService._get_client`: a per-request key yields a fresh client;
otherwise the environment key is required. -/
def clientKey (envKey apiKey : Option String) : Option String :=
  if pyTruthy apiKey then apiKey else if pyTruthy envKey then envKey else none

/-- `LLMService._fallback_summarize`: build the legacy prompt, obtain a
client (no credential → HTTP 400 before any provider call), make one
completion call. -/
def fallbackSummarize (envKey apiKey : Option String) (o : LLMOracle)
    (text : String) (maxLength : ℕ) : Except String String × ℕ :=
  let prompt := createSummaryPrompt text maxLength
  match clientKey envKey apiKey with
  | none => (.error "No OpenAI API key provided. Please provide your own API key.", 0)
  | some _ =>
    match o.complete prompt with
    | .ok r => (.ok (pyStrip r), 1)
    | .error e => (.error ("Summarization failed: " ++ e), 1)

/-- `LLMService.summarize_text` (via `summarize`): empty text is
rejected before the `try`, hence before the smart summarizer or any
provider call; failures with "authentication" in the message map to the
invalid-key error, other smart-summarizer failures fall back to the
legacy path.  Returns ((result, new singleton state), provider calls
attempted). -/
def llmSummarizeText (envKey : Option String) (st : Option Summarizer)
    (o : LLMOracle) (text : String) (maxLength : ℕ) (apiKey : Option String) :
    (Except String String × Option Summarizer) × ℕ :=
  if pyStrip text = "" then ((.error "Text cannot be empty", st), 0)
  else
    match getSummarizer envKey apiKey st with
    | .error e =>
      if strContains (pyLower e) "authentication" then
        ((.error "Invalid API key. Please check your OpenAI API key.", st), 0)
      else
        let fb := fallbackSummarize envKey apiKey o text maxLength
        ((fb.1, st), fb.2)
    | .ok (_, st2) =>
      let sc := smartSummarize o text maxLength
      match sc.1 with
      | .ok res => ((.ok res.summary, st2), sc.2)
      | .error e =>
        if strContains (pyLower e) "authentication" then
          ((.error "Invalid API key. Please check your OpenAI API key.", st2), sc.2)
        else
          let fb := fallbackSummarize envKey apiKey o text maxLength
          ((fb.1, st2), sc.2 + fb.2)

/-- `LLMService._fallback_stream`: legacy streaming path; frames each
provider fragment and terminates with `[DONE]`.  A missing credential
fails before any provider call; a provider failure raises (it is the
langgraph-free legacy path, only reachable without any credential). -/
def fallbackStream (envKey apiKey : Option String)
    (streamOracle : String → Except String (List String))
    (text : String) (maxLength : ℕ) : Except String (List String) × ℕ :=
  let prompt := createSummaryPrompt text maxLength
  match clientKey envKey apiKey with
  | none => (.error "No OpenAI API key provided. Please provide your own API key.", 0)
  | some _ =>
    match streamOracle prompt with
    | .ok chunks =>
      (.ok ((chunks.map (fun c => "data: " ++ c ++ "\n\n")) ++ ["data: [DONE]\n\n"]), 1)
    | .error e => (.error ("Streaming failed: " ++ e), 1)

/-- `LLMService.summarize_text_stream` (via `summarize_stream`): empty
text is rejected before any provider call; otherwise the smart
summarizer's stream is relayed unchanged (it never raises), with the
legacy fallback only when the summarizer cannot be constructed. -/
def llmSummarizeTextStream (envKey : Option String) (st : Option Summarizer)
    (o : LLMOracle) (streamOracle : String → Except String (List String))
    (text : String) (maxLength : ℕ) (apiKey : Option String) :
    (Except String (List String) × Option Summarizer) × ℕ :=
  if pyStrip text = "" then ((.error "Text cannot be empty", st), 0)
  else
    match getSummarizer envKey apiKey st with
    | .error e =>
      if strContains (pyLower e) "authentication" then
        ((.error "Invalid API key. Please check your OpenAI API key.", st), 0)
      else
        let fb := fallbackStream envKey apiKey streamOracle text maxLength
        ((fb.1, st), fb.2)
    | .ok (_, st2) =>
      let sc := smartSummarizeStream o text maxLength
      ((.ok sc.1, st2), sc.2)

/-- The `generate` inner generator of the `POST /summarize/stream`
route in main.py: frame every relayed fragment as `data: <fragment>`
plus a blank line, then emit the `data: [DONE]` terminator. -/
def generateSSE (chunks : List String) : List String :=
  chunks.map (fun c => "data: " ++ c ++ "\n\n") ++ ["data: [DONE]\n\n"]

/-- The `POST /summarize/stream` route: run the service stream and
frame its fragments. -/
def summarizeStreamRoute (envKey : Option String) (st : Option Summarizer)
    (o : LLMOracle) (streamOracle : String → Except String (List String))
    (text : String) (maxLength : ℕ) (apiKey : Option String) :
    (Except String (List String) × Option Summarizer) × ℕ :=
  let r := llmSummarizeTextStream envKey st o streamOracle text maxLength apiKey
  match r.1.1 with
  | .ok chunks => ((.ok (generateSSE chunks), r.1.2), r.2)
  | .error e => ((.error e, r.1.2), r.2)

/-! ## Helper lemmas -/

theorem pyStrip_eq_empty (s : String) (h : ∀ c ∈ s.toList, c.isWhitespace) :
    pyStrip s = "" := by
  unfold pyStrip
  have h1 : s.toList.dropWhile Char.isWhitespace = [] :=
    List.dropWhile_eq_nil_iff.2 (fun c hc => h c hc)
  rw [h1]
  rfl

theorem exists_nonws_of_pyStrip_ne (s : String) (h : pyStrip s ≠ "") :
    ∃ c ∈ s.toList, ¬ c.isWhitespace := by
  by_contra hall
  push_neg at hall
  exact h (pyStrip_eq_empty s (by simpa using hall))

theorem pySplitAux_ne_nil_of_acc (l : List Char) (acc : List Char) (h : acc ≠ []) :
    pySplitAux l acc ≠ [] := by
  induction l generalizing acc with
  | nil => simp [pySplitAux, h]
  | cons c cs ih =>
    unfold pySplitAux
    by_cases hws : c.isWhitespace
    · simp [hws, h]
    · simp only [hws, if_false]
      exact ih (c :: acc) (by simp)

theorem pySplitAux_ne_nil (l : List Char) (h : ∃ c ∈ l, ¬ c.isWhitespace) :
    pySplitAux l [] ≠ [] := by
  induction l with
  | nil => simp at h
  | cons c cs ih =>
    unfold pySplitAux
    by_cases hws : c.isWhitespace
    · simp only [hws, if_true, List.isEmpty_nil, if_true]
      apply ih
      obtain ⟨d, hd, hdw⟩ := h
      rcases List.mem_cons.1 hd with rfl | hmem
      · exact absurd hws hdw
      · exact ⟨d, hmem, hdw⟩
    · simp only [hws, if_false]
      exact pySplitAux_ne_nil_of_acc cs [c] (by simp)

theorem pySplit_ne_nil (s : String) (h : pyStrip s ≠ "") : pySplit s ≠ [] :=
  pySplitAux_ne_nil s.toList (exists_nonws_of_pyStrip_ne s h)

/-! ## Claim theorems -/

/-- C2: the spec (and the repository's own test suite) require the
domain classifier to return "general" when no domain keyword occurs,
but `detect_domain`'s `if domain_scores else "general"` guard tests a
dict that always has five entries, so the fallback is dead code and a
keyword-free text gets the first enumerated domain, "technical". -/
theorem c2_general_fallback_dead :
    detectDomain "Just some regular text" = "technical" ∧ "technical" ≠ "general" :=
  ⟨by decide, by decide⟩

/-- C7: `find_similar_texts` on an empty cache returns the empty list
for every query and threshold (the `if not self.text_cache` guard),
and, being a total function of the state, never raises. -/
theorem c7_find_similar_empty (embed : String → List ℚ) (s : CacheState)
    (h : s.entries = []) (text : String) (threshold : ℚ) :
    findSimilarTexts embed s text threshold = [] := by
  unfold findSimilarTexts
  simp [h]

theorem c7_find_similar_empty_witness :
    findSimilarTexts (fun _ => [1]) { index := [], entries := [] } "any query" (8/10) = [] :=
  c7_find_similar_empty _ _ rfl _ _

/-- C9: the summarizer factory stores a caller-keyed instance in the
process-global singleton, and a later call without a key returns that
same instance, so a keyless request is served with the earlier
caller's credential. -/
theorem c9_singleton_key_leak (envKey : Option String) (st0 : Option Summarizer)
    (k : String) (hk : k ≠ "") :
    getSummarizer envKey (some k) st0
        = .ok (({ api_key := k } : Summarizer), some { api_key := k })
    ∧ getSummarizer envKey none (some { api_key := k })
        = .ok (({ api_key := k } : Summarizer), some { api_key := k })
    ∧ ({ api_key := k } : Summarizer).api_key = k := by
  refine ⟨?_, ?_, rfl⟩
  · cases st0 <;> simp [getSummarizer, pyTruthy, hk, mkSummarizer, Except.map]
  · simp [getSummarizer, pyTruthy]

theorem c9_singleton_key_leak_witness :
    getSummarizer none (some "sk-user-key") none
        = .ok (({ api_key := "sk-user-key" } : Summarizer), some { api_key := "sk-user-key" })
    ∧ getSummarizer none none (some { api_key := "sk-user-key" })
        = .ok (({ api_key := "sk-user-key" } : Summarizer), some { api_key := "sk-user-key" })
    ∧ ({ api_key := "sk-user-key" } : Summarizer).api_key = "sk-user-key" :=
  c9_singleton_key_leak none none "sk-user-key" (by decide)

/-- C3: on empty or whitespace-only input, the blocking and the
streaming summarize operations of both the LLM service and the
LangGraph service fail with the empty-input error with zero provider
calls attempted. -/
theorem c3_empty_input_rejected_before_provider
    (envKey : Option String) (st : Option Summarizer) (o : LLMOracle)
    (streamOracle : String → Except String (List String))
    (embed : String → List ℚ) (tok : String → ℕ) (s : CacheState)
    (text : String) (maxLength : ℕ) (apiKey : Option String)
    (costBudget : ℚ) (preferences : List (String × String))
    (h : ∀ c ∈ text.toList, c.isWhitespace) :
    llmSummarizeText envKey st o text maxLength apiKey
        = ((.error "Text cannot be empty", st), 0)
    ∧ llmSummarizeTextStream envKey st o streamOracle text maxLength apiKey
        = ((.error "Text cannot be empty", st), 0)
    ∧ lgSummarize embed tok o.complete s text costBudget preferences
        = (.error "Text cannot be empty", 0)
    ∧ lgSummarizeStream embed tok streamOracle s text costBudget preferences
        = (.error "Text cannot be empty", 0) := by
  have hs : pyStrip text = "" := pyStrip_eq_empty text h
  refine ⟨?_, ?_, ?_, ?_⟩ <;>
    simp [llmSummarizeText, llmSummarizeTextStream, lgSummarize, lgSummarizeStream, hs]

theorem c3_empty_input_rejected_witness :
    llmSummarizeText (some "sk-env") none
        { complete := fun _ => .ok "summary", decodeAnalysis := fun _ => .error "bad json" }
        "   " 200 none
      = ((.error "Text cannot be empty", none), 0)
    ∧ llmSummarizeTextStream (some "sk-env") none
        { complete := fun _ => .ok "summary", decodeAnalysis := fun _ => .error "bad json" }
        (fun _ => .ok ["chunk"]) "   " 200 none
      = ((.error "Text cannot be empty", none), 0)
    ∧ lgSummarize (fun _ => [1]) String.length (fun _ => Except.ok "summary")
        { index := [], entries := [] } "   " (1/100) []
      = (.error "Text cannot be empty", 0)
    ∧ lgSummarizeStream (fun _ => [1]) String.length (fun _ => .ok ["chunk"])
        { index := [], entries := [] } "   " (1/100) []
      = (.error "Text cannot be empty", 0) := by
  have := c3_empty_input_rejected_before_provider (some "sk-env") none
    { complete := fun _ => .ok "summary", decodeAnalysis := fun _ => .error "bad json" }
    (fun _ => .ok ["chunk"]) (fun _ => [1]) String.length
    { index := [], entries := [] } "   " 200 none (1/100) [] (by decide)
  exact this

theorem compressStrategy_strategy_used (tok : String → ℕ) (c : SummaryContext) :
    (compressStrategy tok c).strategy_used = "compress" := by
  simp only [compressStrategy]
  split <;> rfl

theorem templateStrategy_strategy_used (tok : String → ℕ) (c : SummaryContext) :
    (templateStrategy tok c).strategy_used = "template" := rfl

theorem chunkStrategy_strategy_used (tok : String → ℕ) (c : SummaryContext) :
    (chunkStrategy tok c).strategy_used =
      if (pySplit c.text).length ≤ 300 then "template" else "chunk" := by
  unfold chunkStrategy
  split
  · rw [if_pos (by assumption)]
    exact templateStrategy_strategy_used tok c
  · rw [if_neg (by assumption)]

theorem shallowTrainStrategy_strategy_used (tok : String → ℕ)
    (sim : List SimilarText) (c : SummaryContext) (h : sim ≠ []) :
    (shallowTrainStrategy tok sim c).strategy_used = "shallow_train" := by
  unfold shallowTrainStrategy
  cases sim with
  | nil => exact absurd rfl h
  | cons a l => rfl

/-- C1 (amended): the strategy selector evaluates its policy in order
with first match winning — `cache_hit` when the best cached similarity
is strictly greater than 0.95; otherwise, for more than 2000 estimated
tokens, dispatch to the chunk builder when the cost budget exceeds
0.005 (which itself yields `chunk` only when the text has more than
300 words and falls back to `template` otherwise) and to the compress
builder when the budget is insufficient; otherwise `shallow_train`
when similar cached texts exist; otherwise `template`. -/
theorem c1_strategy_policy (embed : String → List ℚ) (tok : String → ℕ)
    (s : CacheState) (c : SummaryContext) :
    (optimizeContext embed tok s c).strategy_used =
      (let sim := findSimilarTexts embed s c.text (8/10)
       if 95/100 < (sim.headD defaultSimilar).similarity then "cache_hit"
       else if 2000 < c.estimated_tokens then
         if 5/1000 < c.cost_budget then
           (if 300 < (pySplit c.text).length then "chunk" else "template")
         else "compress"
       else if sim.isEmpty then "template"
       else "shallow_train") := by
  have hchunk : (if 2000 < c.estimated_tokens then
        if 5/1000 < c.cost_budget then chunkStrategy tok c else compressStrategy tok c
      else templateStrategy tok c).strategy_used
      = (if 2000 < c.estimated_tokens then
          if 5/1000 < c.cost_budget then
            (if 300 < (pySplit c.text).length then "chunk" else "template")
          else "compress"
        else "template") := by
    split
    · split
      · rw [chunkStrategy_strategy_used]
        by_cases h3 : 300 < (pySplit c.text).length
        · rw [if_neg (by omega), if_pos h3]
        · rw [if_pos (by omega), if_neg h3]
      · exact compressStrategy_strategy_used tok c
    · exact templateStrategy_strategy_used tok c
  have hchunk2 : ∀ sim : List SimilarText, sim ≠ [] →
      (if 2000 < c.estimated_tokens then
        if 5/1000 < c.cost_budget then chunkStrategy tok c else compressStrategy tok c
      else shallowTrainStrategy tok sim c).strategy_used
      = (if 2000 < c.estimated_tokens then
          if 5/1000 < c.cost_budget then
            (if 300 < (pySplit c.text).length then "chunk" else "template")
          else "compress"
        else "shallow_train") := by
    intro sim hne
    split
    · split
      · rw [chunkStrategy_strategy_used]
        by_cases h3 : 300 < (pySplit c.text).length
        · rw [if_neg (by omega), if_pos h3]
        · rw [if_pos (by omega), if_neg h3]
      · exact compressStrategy_strategy_used tok c
    · exact shallowTrainStrategy_strategy_used tok sim c hne
  cases hsim : findSimilarTexts embed s c.text (8/10) with
  | nil =>
    have hhd : ¬ (95:ℚ)/100 < (([] : List SimilarText).headD defaultSimilar).similarity := by
      simp only [List.headD_nil, defaultSimilar]
      norm_num
    simp only [optimizeContext, hsim, isCacheHit, Bool.false_eq_true, if_false,
      List.isEmpty_nil, if_true, if_neg hhd]
    exact hchunk
  | cons top rest =>
    by_cases hhit : (95:ℚ)/100 < top.similarity
    · simp only [optimizeContext, hsim, isCacheHit, decide_eq_true_eq, if_pos hhit,
        List.headD_cons]
      rfl
    · simp only [optimizeContext, hsim, isCacheHit, decide_eq_true_eq, if_neg hhit,
        List.headD_cons, List.isEmpty_cons, Bool.false_eq_true, if_false]
      exact hchunk2 (top :: rest) (by simp)

/-- Embedding function of the C1 counterexample: the query "q" scores
inner product exactly 0.95 against the single cached vector. -/
def cexEmbed : String → List ℚ := fun t => if t = "q" then [19/20] else [1]

/-- One-entry cache of the C1 counterexample. -/
def cexState : CacheState :=
  { index := [[1]], entries := [{ text := "a", summary := "sumA", strategy := "template" }] }

/-- Context of part (a): short text, similarity exactly 0.95. -/
def cexContextA : SummaryContext :=
  { text := "q", text_length := 1, estimated_tokens := 10, complexity_score := 1/2,
    domain := "general", language := "en", user_preferences := [], cost_budget := 1/100 }

/-- Context of part (b): two-word text with 3000 estimated tokens and a
sufficient cost budget. -/
def cexContextB : SummaryContext :=
  { text := "alpha beta", text_length := 10, estimated_tokens := 3000,
    complexity_score := 1/2, domain := "general", language := "en",
    user_preferences := [], cost_budget := 1/100 }

theorem cex_find_similar :
    findSimilarTexts cexEmbed cexState "q" (8/10)
      = [{ text := "a", summary := "sumA", similarity := 19/20, strategy := "template" }] := by
  have hdot : dotQ (cexEmbed "q") [1] = 19/20 := by
    simp only [cexEmbed, if_pos rfl, dotQ, List.zipWith, List.sum_cons, List.sum_nil]
    norm_num
  simp only [findSimilarTexts, cexState, searchIndex, scorePairs, List.map, hdot,
    enumFromIdx, sortRanked, List.foldr, insertRanked, List.isEmpty_cons,
    Bool.false_eq_true, if_false, List.length_cons, List.length_nil]
  norm_num [List.filterMap, List.getD, defaultEntry]

/-- C1 counterexample: (a) with a cached entry at similarity exactly
0.95 — "at least 0.95" in the claim's sense — the selector picks
`shallow_train`, not `cache_hit`, because the code's comparison is
strict; (b) with 3000 estimated tokens, a sufficient budget (0.01 >
0.005) and a two-word text, the selector yields `template`, not
`chunk`, because the chunk builder falls back on texts of at most 300
words. -/
theorem c1_strategy_policy_counterexample :
    ((findSimilarTexts cexEmbed cexState "q" (8/10)).headD defaultSimilar).similarity = 19/20
    ∧ (95/100 : ℚ) ≤ 19/20
    ∧ (optimizeContext cexEmbed String.length cexState cexContextA).strategy_used
        = "shallow_train"
    ∧ "shallow_train" ≠ "cache_hit"
    ∧ (2000:ℕ) < cexContextB.estimated_tokens
    ∧ (5/1000 : ℚ) < cexContextB.cost_budget
    ∧ (optimizeContext cexEmbed String.length
        { index := [], entries := [] } cexContextB).strategy_used = "template"
    ∧ "template" ≠ "chunk" := by
  have hA : (optimizeContext cexEmbed String.length cexState cexContextA).strategy_used
      = "shallow_train" := by
    have htext : cexContextA.text = "q" := rfl
    have hhit : isCacheHit
        [{ text := "a", summary := "sumA", similarity := 19/20, strategy := "template" }]
        = false := by
      simp only [isCacheHit, decide_eq_false_iff_not]
      norm_num
    have htok : ¬ (2000 < cexContextA.estimated_tokens) := by decide
    simp only [optimizeContext, htext, cex_find_similar, hhit, Bool.false_eq_true,
      if_false, if_neg htok, List.isEmpty_cons]
    exact shallowTrainStrategy_strategy_used _ _ _ (by simp)
  have hB : (optimizeContext cexEmbed String.length
      { index := [], entries := [] } cexContextB).strategy_used = "template" := by
    have hempty : findSimilarTexts cexEmbed
        ({ index := [], entries := [] } : CacheState) cexContextB.text (8/10) = [] := by
      simp [findSimilarTexts]
    have htok : 2000 < cexContextB.estimated_tokens := by decide
    have hbud : (5:ℚ)/1000 < cexContextB.cost_budget := by norm_num [cexContextB]
    have h300 : ¬ (300 < (pySplit cexContextB.text).length) := by decide
    simp only [optimizeContext, hempty, isCacheHit, Bool.false_eq_true, if_false,
      if_pos htok, if_pos hbud, chunkStrategy_strategy_used, if_pos (by omega :
        (pySplit cexContextB.text).length ≤ 300)]
  refine ⟨?_, by norm_num, hA, by decide, by decide, by norm_num [cexContextB], hB, by decide⟩
  rw [cex_find_similar]
  rfl

theorem extractKeyPoints_le_8 (o : LLMOracle) (t ty : String) (q : ℚ) :
    (extractKeyPoints o t ty q).1.length ≤ 8 := by
  unfold extractKeyPoints
  rcases hcall : o.complete
      (extractionPrompt t ty (max 10 (pyInt (((pySplit t).length : ℚ) * q)))) with e | r
  · simp [hcall]
  · simp only [hcall]
    simp [List.length_take_le]

theorem maxmin_pyInt_floor (a : ℤ) (q : ℚ) :
    max 15 (min a (pyInt q)) = max 15 (min a ⌊q⌋) := by
  unfold pyInt
  split
  · rename_i hq
    have h1 : ⌊q⌋ ≤ 0 := Int.floor_nonpos hq.le
    have h2 : (0:ℤ) ≤ ⌊-q⌋ := Int.floor_nonneg.2 (by linarith)
    omega
  · rfl

/-- C10: whenever the decoded analysis carries the two keys the
pipeline subscripts — in particular always when the provider call or
the JSON decode failed, since the fallback analysis carries both — the
simplified pipeline's final summary is built by the final-summary
stage at the target word budget
`max 15 (min (max_length / 5) ⌊word_count * optimal_compression⌋)` —
the divisor is 5, never 3, with a floor of 15 — from exactly the
extracted key points, of which there are at most 8.  (A decoded dict
missing either key instead aborts the pipeline with a `KeyError`
wrapped into an HTTP 500; see `smartSummarize_missing_key`.) -/
theorem c10_simplified_pipeline_budget (o : LLMOracle) (text : String) (maxLength : ℕ)
    (ty : String) (comp : ℚ) (h : pyStrip text ≠ "")
    (hty : (analyzeText o text).1.text_type = some ty)
    (hcomp : (analyzeText o text).1.optimal_compression = some comp) :
    ((smartSummarize o text maxLength).1.map SmartResult.summary)
      = .ok (createFinalSummary o (extractKeyPoints o text ty comp).1
          (max 15 (min ((maxLength / 5 : ℕ) : ℤ)
            ⌊((pySplit text).length : ℚ) * comp⌋)) ty).1
    ∧ ((smartSummarize o text maxLength).1.map SmartResult.key_points)
      = .ok (extractKeyPoints o text ty comp).1
    ∧ (extractKeyPoints o text ty comp).1.length ≤ 8 := by
  have hw : (pySplit text).length ≠ 0 := by
    have hne := pySplit_ne_nil text h
    simpa [List.length_eq_zero] using hne
  refine ⟨?_, ?_, extractKeyPoints_le_8 o text _ _⟩ <;>
    simp only [smartSummarize, if_neg h, hty, hcomp, if_neg hw, maxmin_pyInt_floor, Except.map]

/-- Oracle whose analysis response decodes to a valid JSON dict that
lacks the `optimal_compression` key: `_analyze_text`'s bare `except:`
does not fire for it. -/
def keylessOracle : LLMOracle :=
  { complete := fun _ => .ok "a json dict without the expected keys",
    decodeAnalysis := fun _ =>
      .ok { text_type := some "article", complexity := none, optimal_compression := none } }

/-- The `KeyError` path is reachable: a decoded dict missing
`optimal_compression` survives `_analyze_text` untouched and aborts
`summarize` at the `analysis["optimal_compression"]` subscript, after
exactly the one analysis provider call. -/
theorem smartSummarize_missing_key :
    smartSummarize keylessOracle "hello world" 200
      = (.error "Smart summarization failed: KeyError: optimal_compression", 1) := by
  have hdec : (analyzeText keylessOracle "hello world").1
      = { text_type := some "article", complexity := none, optimal_compression := none } := by
    simp only [analyzeText, keylessOracle, Except.bind]
    norm_num
  simp only [smartSummarize, hdec]
  rw [if_neg (show ¬ pyStrip "hello world" = "" by decide)]
  rfl

/-- Oracle of the C10 witness: completions always return a one-point
numbered list and the analysis JSON never decodes, so the default
analysis (text_type "other", compression 0.2) is used. -/
def c10Oracle : LLMOracle :=
  { complete := fun _ => .ok "1. a point", decodeAnalysis := fun _ => .error "bad json" }

theorem c10_simplified_pipeline_budget_witness :
    (((smartSummarize c10Oracle "hello world" 200).1.map SmartResult.summary)
      = .ok (createFinalSummary c10Oracle
          (extractKeyPoints c10Oracle "hello world" "other" (2/10)).1
          (max 15 (min ((200 / 5 : ℕ) : ℤ)
            ⌊((pySplit "hello world").length : ℚ) * (2/10)⌋)) "other").1)
    ∧ (((smartSummarize c10Oracle "hello world" 200).1.map SmartResult.key_points)
      = .ok (extractKeyPoints c10Oracle "hello world" "other" (2/10)).1)
    ∧ (extractKeyPoints c10Oracle "hello world" "other" (2/10)).1.length ≤ 8 :=
  c10_simplified_pipeline_budget c10Oracle "hello world" 200 "other" (2/10)
    (by decide) rfl rfl

theorem getLast?_append_pair (l : List String) (a b : String) :
    (l ++ [a, b]).getLast? = some b := by
  rw [show l ++ [a, b] = (l ++ [a]) ++ [b] by simp, List.getLast?_concat]

theorem smartSummarizeStream_ends_done (o : LLMOracle) (text : String) (maxLength : ℕ) :
    (smartSummarizeStream o text maxLength).1.getLast? = some "data: [DONE]\n\n" := by
  unfold smartSummarizeStream smartStreamAux
  rcases hty : (analyzeText o text).1.text_type with _ | ty
  · simp only [hty]
    exact getLast?_append_pair _ _ _
  · rcases hcomp : (analyzeText o text).1.optimal_compression with _ | comp
    · simp only [hty, hcomp]
      exact getLast?_append_pair _ _ _
    · by_cases h0 : (pySplit text).length = 0
      · simp only [hty, hcomp, h0, if_true]
        exact getLast?_append_pair _ _ _
      · simp only [hty, hcomp, h0, if_false]
        exact getLast?_append_pair _ _ _

/-- C5 (amended): every fragment the streaming endpoint emits is
framed as `data: <fragment>` plus a blank line, and the endpoint
stream is terminated by `data: [DONE]` plus a blank line.  The relayed
inner stream always ends with its own `[DONE]` marker and never
raises (it is a total function).  A mid-stream provider failure is NOT
emitted as an error fragment: every provider call sits inside a
per-stage bare `except` that absorbs the failure into fallback content
— in particular, when every completion fails the analysis stage
returns the default analysis, and on any text with at least one word
whose analysis carries the two expected keys the `try` body completes
normally, so nothing is appended.  Only a failure that escapes to the
generator's outer `except` (the `KeyError` of a key-less decoded
analysis, or the stage-5 zero division) is emitted as a terminal error
fragment followed by `[DONE]` instead of being raised after partial
output. -/
theorem c5_stream_framing (o : LLMOracle) (text : String) (maxLength : ℕ) :
    (∀ f ∈ generateSSE (smartSummarizeStream o text maxLength).1,
        ∃ body, f = "data: " ++ body ++ "\n\n")
    ∧ (generateSSE (smartSummarizeStream o text maxLength).1).getLast?
        = some "data: [DONE]\n\n"
    ∧ (smartSummarizeStream o text maxLength).1.getLast? = some "data: [DONE]\n\n"
    ∧ (∀ msg, (smartStreamAux o text maxLength).2 = some msg →
        (smartSummarizeStream o text maxLength).1
          = (smartStreamAux o text maxLength).1.1
              ++ [errorFrame msg, "data: [DONE]\n\n"])
    ∧ (∀ err : String, (∀ p, o.complete p = Except.error err) →
        (analyzeText o text).1 = defaultAnalysis)
    ∧ ((pySplit text).length ≠ 0 →
        (analyzeText o text).1.text_type.isSome →
        (analyzeText o text).1.optimal_compression.isSome →
        (smartStreamAux o text maxLength).2 = none
        ∧ smartSummarizeStream o text maxLength = (smartStreamAux o text maxLength).1) := by
  refine ⟨?_, ?_, smartSummarizeStream_ends_done o text maxLength, ?_, ?_, ?_⟩
  · intro f hf
    rcases List.mem_append.1 hf with hmap | hdone
    · obtain ⟨c, _, rfl⟩ := List.mem_map.1 hmap
      exact ⟨c, rfl⟩
    · refine ⟨"[DONE]", ?_⟩
      rw [List.mem_singleton.1 hdone]
      rfl
  · exact List.getLast?_concat _
  · intro msg hmsg
    simp only [smartSummarizeStream, hmsg]
  · intro err herr
    simp only [analyzeText, herr, Except.bind]
  · intro h0 hty hcomp
    obtain ⟨ty, hty2⟩ := Option.isSome_iff_exists.1 hty
    obtain ⟨comp, hcomp2⟩ := Option.isSome_iff_exists.1 hcomp
    have hnone : (smartStreamAux o text maxLength).2 = none := by
      simp only [smartStreamAux, hty2, hcomp2, h0, if_false]
    refine ⟨hnone, ?_⟩
    simp only [smartSummarizeStream, hnone]

/-- Oracle of the C5 witness. -/
def c5Oracle : LLMOracle :=
  { complete := fun _ => .ok "ignored", decodeAnalysis := fun _ => .error "bad json" }

/-- Oracle of the C5 counterexample: every provider call fails. -/
def c5FailOracle : LLMOracle :=
  { complete := fun _ => .error "provider unavailable",
    decodeAnalysis := fun _ => .error "no response to decode" }

/-- C5 counterexample: with a provider that fails on every call, after
the first fragment has been emitted the failing analysis call is
absorbed into the default analysis, the failing extraction call into
the placeholder key-point list, the `try` body completes without any
exception, nothing is appended to it, and the stream ends with the
normal `[DONE]` marker — no terminal error fragment is ever emitted
for a provider failure, contrary to the claim. -/
theorem c5_stream_framing_counterexample :
    c5FailOracle.complete (analysisPrompt "hello world") = .error "provider unavailable"
    ∧ (analyzeText c5FailOracle "hello world").1 = defaultAnalysis
    ∧ (extractKeyPoints c5FailOracle "hello world" "other" (2/10)).1
        = ["Unable to extract key points"]
    ∧ (smartStreamAux c5FailOracle "hello world" 200).2 = none
    ∧ smartSummarizeStream c5FailOracle "hello world" 200
        = (smartStreamAux c5FailOracle "hello world" 200).1
    ∧ (smartSummarizeStream c5FailOracle "hello world" 200).1.getLast?
        = some "data: [DONE]\n\n" := by
  refine ⟨rfl, rfl, rfl, ?_, ?_, by decide⟩
  · rfl
  · rfl

theorem c5_stream_framing_witness :
    ((generateSSE (smartSummarizeStream c5Oracle "   " 200).1).getLast?
        = some "data: [DONE]\n\n"
    ∧ (smartSummarizeStream c5Oracle "   " 200).1.getLast? = some "data: [DONE]\n\n"
    ∧ (smartSummarizeStream c5Oracle "   " 200).1
        = (smartStreamAux c5Oracle "   " 200).1.1
            ++ [errorFrame "division by zero", "data: [DONE]\n\n"])
    ∧ ((analyzeText c5FailOracle "hello world").1 = defaultAnalysis
    ∧ (smartStreamAux c5FailOracle "hello world" 200).2 = none
    ∧ smartSummarizeStream c5FailOracle "hello world" 200
        = (smartStreamAux c5FailOracle "hello world" 200).1) :=
  ⟨⟨(c5_stream_framing c5Oracle "   " 200).2.1,
    (c5_stream_framing c5Oracle "   " 200).2.2.1,
    (c5_stream_framing c5Oracle "   " 200).2.2.2.1 "division by zero" (by decide)⟩,
   ⟨(c5_stream_framing c5FailOracle "hello world" 200).2.2.2.2.1
      "provider unavailable" (fun p => rfl),
    (c5_stream_framing c5FailOracle "hello world" 200).2.2.2.2.2
      (by decide) (by decide) (by decide)⟩⟩

theorem chunksGo_nil (fuel n : ℕ) : chunksGo fuel n ([] : List String) = [] := by
  cases fuel <;> rfl

theorem chunksGo_flatten (n : ℕ) (hn : 0 < n) :
    ∀ (fuel : ℕ) (l : List String), l.length ≤ fuel → (chunksGo fuel n l).flatten = l := by
  intro fuel
  induction fuel with
  | zero =>
    intro l hl
    have : l = [] := List.length_eq_zero.1 (Nat.le_zero.1 hl)
    subst this
    rfl
  | succ fuel ih =>
    intro l hl
    cases l with
    | nil => rfl
    | cons x xs =>
      have hdl : (List.drop n (x :: xs)).length ≤ fuel := by
        have h1 : (x :: xs).length = xs.length + 1 := rfl
        have h2 : xs.length + 1 ≤ fuel + 1 := by rw [← h1]; exact hl
        simp only [List.length_drop, h1]
        omega
      show (List.take n (x :: xs) :: chunksGo fuel n (List.drop n (x :: xs))).flatten = x :: xs
      rw [List.flatten_cons, ih (List.drop n (x :: xs)) hdl, List.take_append_drop]

theorem chunksGo_mem_le (n : ℕ) :
    ∀ (fuel : ℕ) (l : List String), ∀ c ∈ chunksGo fuel n l, c.length ≤ n := by
  intro fuel
  induction fuel with
  | zero => intro l c hc; cases hc
  | succ fuel ih =>
    intro l c hc
    cases l with
    | nil => cases hc
    | cons x xs =>
      rcases List.mem_cons.1 hc with rfl | hmem
      · simp [List.length_take]
      · exact ih (List.drop n (x :: xs)) c hmem

theorem chunksGo_dropLast_len (n : ℕ) (hn : 0 < n) :
    ∀ (fuel : ℕ) (l : List String), l.length ≤ fuel →
      ∀ c ∈ (chunksGo fuel n l).dropLast, c.length = n := by
  intro fuel
  induction fuel with
  | zero => intro l hl c hc; cases hl' : chunksGo 0 n l <;> simp [chunksGo] at hc
  | succ fuel ih =>
    intro l hl c hc
    cases l with
    | nil => simp [chunksGo] at hc
    | cons x xs =>
      have hstep : chunksGo (fuel + 1) n (x :: xs)
          = List.take n (x :: xs) :: chunksGo fuel n (List.drop n (x :: xs)) := rfl
      rw [hstep] at hc
      cases hrest : chunksGo fuel n (List.drop n (x :: xs)) with
      | nil => rw [hrest] at hc; simp at hc
      | cons y ys =>
        rw [hrest] at hc
        rw [List.dropLast_cons₂] at hc
        rcases List.mem_cons.1 hc with rfl | hmem
        · have hdrop : List.drop n (x :: xs) ≠ [] := by
            intro hd
            rw [hd, chunksGo_nil] at hrest
            cases hrest
          have hlen : n ≤ (x :: xs).length := by
            by_contra hh
            push_neg at hh
            exact hdrop (List.drop_eq_nil_of_le (by omega))
          simp only [List.length_take, List.length_cons] at hlen ⊢
          omega
        · rw [← hrest] at hmem
          have hdl : (List.drop n (x :: xs)).length ≤ fuel := by
            have h1 : (x :: xs).length = xs.length + 1 := rfl
            have h2 : xs.length + 1 ≤ fuel + 1 := by rw [← h1]; exact hl
            simp only [List.length_drop, h1]
            omega
          exact ih (List.drop n (x :: xs)) hdl c hmem

/-- C8: on texts of more than 300 words the chunk builder splits the
word list into fixed-size 300-word windows (they concatenate back to
the word list, every window has at most 300 words and all but the last
exactly 300), renders at most the first 3 of them as sections after
the summarize-each-then-overall instruction, and budgets its expected
output tokens from the included chunks only (plus a constant 200). -/
theorem c8_chunk_builder (tok : String → ℕ) (c : SummaryContext)
    (h : 300 < (pySplit c.text).length) :
    (chunkStrategy tok c).strategy_used = "chunk"
    ∧ (wordChunks 300 (pySplit c.text)).flatten = pySplit c.text
    ∧ (∀ ch ∈ wordChunks 300 (pySplit c.text), ch.length ≤ 300)
    ∧ (∀ ch ∈ (wordChunks 300 (pySplit c.text)).dropLast, ch.length = 300)
    ∧ (chunkStrategy tok c).optimized_prompt
        = "Summarize these " ++ toString (wordChunks 300 (pySplit c.text)).length
          ++ " sections separately, then provide an overall summary:\n\n"
          ++ chunkSections ((wordChunks 300 (pySplit c.text)).take 3)
    ∧ ((wordChunks 300 (pySplit c.text)).take 3).length ≤ 3
    ∧ (chunkStrategy tok c).expected_tokens
        = (((wordChunks 300 (pySplit c.text)).take 3).map
            (fun ch => tok (String.intercalate " " ch))).sum + 200 := by
  have hns : ¬ (pySplit c.text).length ≤ 300 := by omega
  refine ⟨?_, chunksGo_flatten 300 (by norm_num) _ _ le_rfl,
    chunksGo_mem_le 300 _ _, chunksGo_dropLast_len 300 (by norm_num) _ _ le_rfl, ?_, ?_, ?_⟩
  · rw [chunkStrategy_strategy_used, if_neg hns]
  · simp only [chunkStrategy, if_neg hns]
  · exact List.length_take_le 3 _
  · simp only [chunkStrategy, if_neg hns]

/-- Context of the C8 witness: a 301-word text. -/
def c8Context : SummaryContext :=
  { text := String.intercalate " " (List.replicate 301 "w"), text_length := 903,
    estimated_tokens := 400, complexity_score := 1/2, domain := "general",
    language := "en", user_preferences := [], cost_budget := 1/100 }

set_option maxRecDepth 10000 in
theorem c8_chunk_builder_witness :
    (chunkStrategy String.length c8Context).strategy_used = "chunk"
    ∧ (wordChunks 300 (pySplit c8Context.text)).flatten = pySplit c8Context.text
    ∧ (chunkStrategy String.length c8Context).optimized_prompt
        = "Summarize these " ++ toString (wordChunks 300 (pySplit c8Context.text)).length
          ++ " sections separately, then provide an overall summary:\n\n"
          ++ chunkSections ((wordChunks 300 (pySplit c8Context.text)).take 3)
    ∧ (chunkStrategy String.length c8Context).expected_tokens
        = (((wordChunks 300 (pySplit c8Context.text)).take 3).map
            (fun ch => String.length (String.intercalate " " ch))).sum + 200 := by
  have h := c8_chunk_builder String.length c8Context (by decide)
  exact ⟨h.1, h.2.1, h.2.2.2.2.1, h.2.2.2.2.2.2⟩

theorem rankBefore_irrefl (x : ℕ × ℚ) : ¬ rankBefore x x := by
  rintro (h | ⟨h1, h2⟩)
  · exact lt_irrefl _ h
  · omega

theorem rankBefore_asymm {x y : ℕ × ℚ} (h : rankBefore x y) : ¬ rankBefore y x := by
  intro h2
  rcases h with h | ⟨he, hi⟩ <;> rcases h2 with h2 | ⟨he2, hi2⟩
  · linarith
  · linarith
  · linarith
  · omega

theorem insertRanked_cons (x y : ℕ × ℚ) (ys : List (ℕ × ℚ)) :
    insertRanked x (y :: ys)
      = if rankBefore x y then x :: y :: ys else y :: insertRanked x ys := rfl

theorem mem_insertRanked (x y : ℕ × ℚ) (l : List (ℕ × ℚ)) :
    y ∈ insertRanked x l ↔ y = x ∨ y ∈ l := by
  induction l with
  | nil => simp [insertRanked]
  | cons a t ih =>
    rw [insertRanked_cons]
    split
    · simp only [List.mem_cons]
    · simp only [List.mem_cons, ih]
      tauto

theorem mem_sortRanked (y : ℕ × ℚ) (l : List (ℕ × ℚ)) :
    y ∈ sortRanked l ↔ y ∈ l := by
  induction l with
  | nil => simp [sortRanked]
  | cons a t ih =>
    show y ∈ insertRanked a (sortRanked t) ↔ _
    rw [mem_insertRanked, ih]
    exact (List.mem_cons).symm

theorem sortRanked_head_of_max (l : List (ℕ × ℚ)) (x : ℕ × ℚ) (hx : x ∈ l)
    (hmax : ∀ y ∈ l, y ≠ x → rankBefore x y) : ∃ t, sortRanked l = x :: t := by
  induction l with
  | nil => cases hx
  | cons a t ih =>
    show ∃ t', insertRanked a (sortRanked t) = x :: t'
    rcases List.mem_cons.1 hx with rfl | hxt
    · cases hsl : sortRanked t with
      | nil => exact ⟨[], rfl⟩
      | cons y ys =>
        have hy : y ∈ t := (mem_sortRanked y t).1 (by rw [hsl]; exact List.mem_cons_self _ _)
        by_cases hya : y = x
        · subst hya
          refine ⟨insertRanked y ys, ?_⟩
          rw [insertRanked_cons, if_neg (rankBefore_irrefl y)]
        · have hr : rankBefore x y := hmax y (List.mem_cons_of_mem _ hy) hya
          refine ⟨y :: ys, ?_⟩
          rw [insertRanked_cons, if_pos hr]
    · obtain ⟨t', ht'⟩ := ih hxt (fun y hy hne => hmax y (List.mem_cons_of_mem _ hy) hne)
      rw [ht']
      by_cases hax : a = x
      · subst hax
        refine ⟨insertRanked a t', ?_⟩
        rw [insertRanked_cons, if_neg (rankBefore_irrefl a)]
      · have hr : rankBefore x a := hmax a (List.mem_cons_self _ _) hax
        refine ⟨insertRanked a t', ?_⟩
        rw [insertRanked_cons, if_neg (rankBefore_asymm hr)]

theorem mem_enumFromIdx (scores : List ℚ) : ∀ (k : ℕ) (p : ℕ × ℚ),
    p ∈ enumFromIdx k scores ↔ ∃ j, j < scores.length ∧ p = (k + j, scores.getD j 0) := by
  induction scores with
  | nil => simp [enumFromIdx]
  | cons a t ih =>
    intro k p
    simp only [enumFromIdx, List.mem_cons, ih (k + 1)]
    constructor
    · rintro (rfl | ⟨j, hj, rfl⟩)
      · exact ⟨0, by simp, by simp⟩
      · refine ⟨j + 1, by simpa using hj, ?_⟩
        simp only [List.getD_cons_succ]
        congr 1
        omega
    · rintro ⟨j, hj, rfl⟩
      cases j with
      | zero => left; simp
      | succ j =>
        right
        refine ⟨j, by simpa using hj, ?_⟩
        simp only [List.getD_cons_succ]
        congr 1
        omega

/-- C4: (size bound) after any insert the cache holds at most 1000
entries; (eviction) an insert into a full cache of 1000 entries keeps
exactly the newest 800 — the evicted prefix of 201 oldest entries,
concatenated with the survivors in unchanged relative order, is the
pre-eviction sequence — and rebuilds the index as exactly the
survivors' embeddings in order; (retrievability) on any state whose
index is the entries' embeddings in order, an entry whose similarity
score against a query is strictly the largest and at least the
threshold is returned by `find_similar_texts`. -/
theorem c4_cache_eviction (embed : String → List ℚ) :
    (∀ (s : CacheState) (t u v : String),
        (addToCache embed s t u v).entries.length ≤ 1000)
    ∧ (∀ (s : CacheState) (t u v : String), s.entries.length = 1000 →
        (addToCache embed s t u v).entries
            = (s.entries ++ [({ text := t, summary := u, strategy := v } : CacheEntry)]).drop 201
        ∧ (s.entries ++ [({ text := t, summary := u, strategy := v } : CacheEntry)]).take 201
              ++ (addToCache embed s t u v).entries
            = s.entries ++ [({ text := t, summary := u, strategy := v } : CacheEntry)]
        ∧ (addToCache embed s t u v).index
            = (addToCache embed s t u v).entries.map (fun e => embed e.text))
    ∧ (∀ (s : CacheState) (q : String) (threshold : ℚ) (i : ℕ),
        s.index = s.entries.map (fun e => embed e.text) →
        i < s.entries.length →
        (∀ j, j < s.entries.length → j ≠ i →
          (s.index.map (dotQ (embed q))).getD j 0
            < (s.index.map (dotQ (embed q))).getD i 0) →
        threshold ≤ (s.index.map (dotQ (embed q))).getD i 0 →
        ({ text := (s.entries.getD i defaultEntry).text
           summary := (s.entries.getD i defaultEntry).summary
           similarity := (s.index.map (dotQ (embed q))).getD i 0
           strategy := (s.entries.getD i defaultEntry).strategy } : SimilarText)
          ∈ findSimilarTexts embed s q threshold) := by
  refine ⟨?_, ?_, ?_⟩
  · intro s t u v
    simp only [addToCache]
    split
    · simp only [List.length_drop]
      omega
    · rename_i hle
      simp only [List.length_append, List.length_cons, List.length_nil] at hle ⊢
      omega
  · intro s t u v h1000
    have hfull : 1000
        < (s.entries ++ [({ text := t, summary := u, strategy := v } : CacheEntry)]).length := by
      simp [h1000]
    have hlen : (s.entries
        ++ [({ text := t, summary := u, strategy := v } : CacheEntry)]).length = 1001 := by
      simp [h1000]
    have hstep : addToCache embed s t u v
        = { entries := (s.entries
              ++ [({ text := t, summary := u, strategy := v } : CacheEntry)]).drop 201,
            index := ((s.entries
              ++ [({ text := t, summary := u, strategy := v } : CacheEntry)]).drop 201).map
                (fun e => embed e.text) } := by
      simp only [addToCache]
      rw [if_pos hfull, hlen]
    rw [hstep]
    exact ⟨rfl, List.take_append_drop 201 _, rfl⟩
  · intro s q threshold i hcoh hi hmax hthresh
    have hne : s.entries.isEmpty = false := by
      cases hent : s.entries with
      | nil => rw [hent] at hi; cases hi
      | cons a l => rfl
    have hslen : (s.index.map (dotQ (embed q))).length = s.entries.length := by
      rw [hcoh]
      simp
    have hx : ((i, (s.index.map (dotQ (embed q))).getD i 0) : ℕ × ℚ)
        ∈ enumFromIdx 0 (s.index.map (dotQ (embed q))) := by
      rw [mem_enumFromIdx]
      exact ⟨i, by omega, by simp⟩
    have hallmax : ∀ y ∈ enumFromIdx 0 (s.index.map (dotQ (embed q))),
        y ≠ (i, (s.index.map (dotQ (embed q))).getD i 0) →
        rankBefore (i, (s.index.map (dotQ (embed q))).getD i 0) y := by
      intro y hy hyne
      obtain ⟨j, hj, rfl⟩ := (mem_enumFromIdx _ 0 y).1 hy
      simp only [Nat.zero_add] at hyne ⊢
      by_cases hji : j = i
      · subst hji
        exact absurd rfl hyne
      · exact Or.inl (hmax j (by omega) hji)
    obtain ⟨rest, hsort⟩ := sortRanked_head_of_max _ _ hx hallmax
    obtain ⟨k2, hk⟩ : ∃ k2, min 10 s.entries.length = k2 + 1 :=
      ⟨min 10 s.entries.length - 1, by omega⟩
    unfold findSimilarTexts searchIndex scorePairs
    rw [hne]
    simp only [Bool.false_eq_true, if_false]
    rw [hk, hsort, List.take_succ_cons, List.mem_filterMap]
    exact ⟨_, List.mem_cons_self _ _, by rw [if_pos ⟨hthresh, hi⟩]⟩

/-- Embedding of the C4 witness: "t1" maps to `[1]`, anything else to
`[1/2]`. -/
def c4Embed : String → List ℚ := fun t => if t = "t1" then [1] else [1/2]

/-- A full cache of 1000 identical oldest entries. -/
def c4FullState : CacheState :=
  { entries := List.replicate 1000 { text := "old", summary := "old summary", strategy := "template" },
    index := List.replicate 1000 (c4Embed "old") }

/-- A coherent two-entry cache for the retrievability part. -/
def c4TwoState : CacheState :=
  { entries := [{ text := "t1", summary := "s1", strategy := "template" },
                { text := "t2", summary := "s2", strategy := "compress" }],
    index := [[1], [1/2]] }

theorem c4_cache_eviction_witness :
    (addToCache c4Embed { index := [], entries := [] } "a" "b" "c").entries.length ≤ 1000
    ∧ ((addToCache c4Embed c4FullState "new" "new summary" "template").entries
          = (c4FullState.entries
              ++ [({ text := "new", summary := "new summary", strategy := "template" } : CacheEntry)]).drop 201
        ∧ (c4FullState.entries
              ++ [({ text := "new", summary := "new summary", strategy := "template" } : CacheEntry)]).take 201
              ++ (addToCache c4Embed c4FullState "new" "new summary" "template").entries
            = c4FullState.entries
              ++ [({ text := "new", summary := "new summary", strategy := "template" } : CacheEntry)]
        ∧ (addToCache c4Embed c4FullState "new" "new summary" "template").index
            = (addToCache c4Embed c4FullState "new" "new summary" "template").entries.map
                (fun e => c4Embed e.text))
    ∧ ({ text := (c4TwoState.entries.getD 0 defaultEntry).text
         summary := (c4TwoState.entries.getD 0 defaultEntry).summary
         similarity := (c4TwoState.index.map (dotQ (c4Embed "t1"))).getD 0 0
         strategy := (c4TwoState.entries.getD 0 defaultEntry).strategy } : SimilarText)
        ∈ findSimilarTexts c4Embed c4TwoState "t1" (8/10) :=
  ⟨(c4_cache_eviction c4Embed).1 { index := [], entries := [] } "a" "b" "c",
   (c4_cache_eviction c4Embed).2.1 c4FullState "new" "new summary" "template"
     (by simp only [c4FullState, List.length_replicate]),
   (c4_cache_eviction c4Embed).2.2 c4TwoState "t1" (8/10) 0
     (by simp [c4TwoState, c4Embed])
     (by norm_num [c4TwoState])
     (by
       intro j hj hne
       have hj1 : j = 1 := by
         simp only [c4TwoState, List.length_cons, List.length_nil] at hj
         omega
       subst hj1
       norm_num [c4TwoState, c4Embed, dotQ])
     (by norm_num [c4TwoState, c4Embed, dotQ])⟩

end SmartSummary
